import Mathlib

/-!
Verification development for the RainfallSF dashboard's data aggregation and
statistics pipeline.

The pipeline under study consists of the record parser and monthly bucketing
in `loadRainfallData`, the annual aggregator `getAnnualRainfall`, the seasonal
heatmap aggregator `getSeasonalHeatmapData`, the z-score anomaly classifier
`getExtremeEvents`, the Pearson correlation computations in the correlation
view (`CorrelationAnalysis`), and the module-level parse cache.

Modelling conventions:
* JavaScript numbers are modelled exactly by the type `JQ`: a rational value,
  NaN, or a signed infinity.  All arithmetic the source performs on possibly
  degenerate values (division by zero, NaN propagation, NaN comparisons being
  false) is carried out in `JQ`.  Where the source manipulates values that are
  provably plain finite numbers (record fields, sums of record fields), plain
  rationals are used.
* `Math.sqrt` returns irrational values in general, so functions that call it
  take the square-root function as an explicit parameter `sqrtFn : JQ → JQ`;
  theorems pin its value relationally (s ≥ 0 and s * s = v) where it matters.
* `estimateHumidity` contains `Math.sin` (irrational in general), so the
  record loader takes the humidity estimator as an explicit parameter; no
  claim under study depends on its value.
* JavaScript `Math.round` is round-half-toward-positive-infinity on finite
  values: `Math.round q = ⌊q + 1/2⌋`.
* JavaScript objects keyed by non-integer strings (the month keys
  "year-month") iterate in insertion order and are modelled by association
  lists extended at the end; objects keyed by integer-like strings (the year
  keys) iterate in ascending numeric order and are modelled by sorting the
  distinct keys.
-/

namespace RainfallSF

/-- A JavaScript number: a finite (here: rational) value, NaN, or a signed
infinity (`inf true` is +Infinity, `inf false` is -Infinity).  The source
never produces -0 on the paths under study, so zero is unsigned. -/
inductive JQ where
  | num (q : ℚ)
  | nan
  | inf (pos : Bool)
deriving DecidableEq

/-- JavaScript addition on `JQ`: NaN propagates, infinities of equal sign
absorb finite values, opposite infinities give NaN. -/
def jsAdd : JQ → JQ → JQ
  | .nan, _ => .nan
  | _, .nan => .nan
  | .num a, .num b => .num (a + b)
  | .num _, .inf s => .inf s
  | .inf s, .num _ => .inf s
  | .inf s, .inf t => if s = t then .inf s else .nan

/-- JavaScript unary negation on `JQ`. -/
def jsNeg : JQ → JQ
  | .num a => .num (-a)
  | .nan => .nan
  | .inf s => .inf (!s)

/-- JavaScript subtraction on `JQ`, `x - y = x + (-y)`. -/
def jsSub (x y : JQ) : JQ := jsAdd x (jsNeg y)

/-- JavaScript multiplication on `JQ`: NaN propagates, `0 * ±∞ = NaN`,
otherwise infinities combine by sign. -/
def jsMul : JQ → JQ → JQ
  | .nan, _ => .nan
  | _, .nan => .nan
  | .num a, .num b => .num (a * b)
  | .num a, .inf s => if a = 0 then .nan else .inf (if 0 < a then s else !s)
  | .inf s, .num a => if a = 0 then .nan else .inf (if 0 < a then s else !s)
  | .inf s, .inf t => .inf (s == t)

/-- JavaScript division on `JQ`: NaN propagates, `0 / 0 = NaN`,
`a / 0 = ±∞` for nonzero finite `a` (the source never produces -0 as a
denominator on the paths under study, so the zero denominator is +0),
finite / infinite is 0, infinite / infinite is NaN. -/
def jsDiv : JQ → JQ → JQ
  | .nan, _ => .nan
  | _, .nan => .nan
  | .num a, .num b =>
      if b = 0 then (if a = 0 then .nan else .inf (0 < a)) else .num (a / b)
  | .num _, .inf _ => .num 0
  | .inf s, .num b => if b = 0 then .inf s else .inf (s == decide (0 < b))
  | .inf _, .inf _ => .nan

/-- JavaScript strict greater-than on `JQ`: any comparison with NaN is
false; infinities compare as expected. -/
def jsGt : JQ → JQ → Bool
  | .nan, _ => false
  | _, .nan => false
  | .num a, .num b => decide (b < a)
  | .num _, .inf s => !s
  | .inf s, .num _ => s
  | .inf s, .inf t => s && !t

/-- JavaScript strict less-than on `JQ`: any comparison with NaN is false. -/
def jsLt : JQ → JQ → Bool
  | .nan, _ => false
  | _, .nan => false
  | .num a, .num b => decide (a < b)
  | .num _, .inf s => s
  | .inf s, .num _ => !s
  | .inf s, .inf t => !s && t

/-- JavaScript `Math.round` on `JQ`: on finite values it rounds to the
nearest integer with ties toward positive infinity, `⌊q + 1/2⌋`; NaN and the
infinities are returned unchanged. -/
def jsRound : JQ → JQ
  | .num q => .num (⌊q + 1/2⌋ : ℤ)
  | .nan => .nan
  | .inf s => .inf s

/-- `array.reduce((sum, v) => sum + v, 0)` over `JQ` values. -/
def sumJQ (l : List JQ) : JQ := l.foldl jsAdd (.num 0)

/-- The four seasons, as in `types/rainfall.ts`. -/
inductive Season where
  | Spring | Summer | Autumn | Winter
deriving DecidableEq

/-- `getSeason` from `rainfallDataLoader`: months 3-5 Spring, 6-8 Summer,
9-11 Autumn, everything else Winter. -/
def getSeason (month : ℤ) : Season :=
  if 3 ≤ month ∧ month ≤ 5 then .Spring
  else if 6 ≤ month ∧ month ≤ 8 then .Summer
  else if 9 ≤ month ∧ month ≤ 11 then .Autumn
  else .Winter

/-- `RainfallRecord` from `types/rainfall.ts`: one monthly record of the
parsed data set. -/
structure RainfallRecord where
  year : ℤ
  month : ℤ
  rainfall : ℚ
  temperature : ℚ
  humidity : ℚ
  season : Season
deriving DecidableEq

/-- `AnnualRainfall` from `types/rainfall.ts`. -/
structure AnnualRainfall where
  year : ℤ
  totalRainfall : ℚ
  avgTemperature : ℚ
  avgHumidity : ℚ
deriving DecidableEq

/-- The extreme-event category enumeration from `types/rainfall.ts`. -/
inductive Category where
  | extreme_high | high | normal | low | extreme_low
deriving DecidableEq

/-- `ExtremeEvent` from `types/rainfall.ts`.  The deviation field is a `JQ`
because the source stores `Math.round(deviation * 100) / 100`, which is NaN
when the standard deviation is zero. -/
structure ExtremeEvent where
  year : ℤ
  rainfall : ℚ
  deviation : JQ
  category : Category
deriving DecidableEq

/-- A cell of a CSV row after PapaParse `dynamicTyping`: an empty or absent
field is `null`; a numeric field is a number; anything else stays a string,
recorded here together with its `parseFloat` value (`none` meaning NaN, as
for a string with no leading numeric prefix). -/
inductive Cell where
  | null
  | numv (q : ℚ)
  | strv (pf : Option ℚ)
deriving DecidableEq

/-- The two columns of a CSV row that `loadRainfallData` reads. -/
structure CSVRow where
  prcp : Cell
  tavg : Cell
deriving DecidableEq

/-- The `row.prcp === null || row.prcp === undefined` test. -/
def cellIsNull : Cell → Bool
  | .null => true
  | _ => false

/-- `parseFloat(cell) || 0` as applied by `loadRainfallData` to a non-null
cell: a numeric cell parses back to itself, a string cell yields its
`parseFloat` value, and a NaN parse result (or a parsed 0, which is falsy) is
replaced by 0 by the `|| 0` fallback. -/
def coerceNum : Cell → ℚ
  | .null => 0
  | .numv q => q
  | .strv none => 0
  | .strv (some q) => q

/-- Gregorian leap year test. -/
def isLeap (y : ℤ) : Bool := (y % 4 == 0 && y % 100 != 0) || y % 400 == 0

/-- Number of days in a Gregorian month. -/
def daysInMonth (y m : ℤ) : ℤ :=
  if m = 2 then (if isLeap y then 29 else 28)
  else if m = 4 ∨ m = 6 ∨ m = 9 ∨ m = 11 then 30
  else 31

/-- The day after a given civil date. -/
def nextDay : ℤ × ℤ × ℤ → ℤ × ℤ × ℤ
  | (y, m, d) =>
    if d < daysInMonth y m then (y, m, d + 1)
    else if m < 12 then (y, m + 1, 1)
    else (y + 1, 1, 1)

/-- Adding a number of days to a civil date, one day at a time. -/
def addDays (s : ℤ × ℤ × ℤ) : ℕ → ℤ × ℤ × ℤ
  | 0 => s
  | k + 1 => addDays (nextDay s) k

/-- The synthesized date of row `i`: `new Date('1993-01-01')` plus `i` days,
read back as (year, month).  The source reads the fields in local time while
the anchor is parsed as UTC midnight, so in timezones west of UTC every label
shifts back one day; the model uses the civil calendar reading of the anchor.
This affects only the bucket labels, not membership or counts. -/
def dateOfIndex (i : ℕ) : ℤ × ℤ :=
  let d := addDays (1993, 1, 1) i
  (d.1, d.2.1)

/-- The per-month accumulator built by the row loop of `loadRainfallData`:
the pushed precipitation values, the pushed temperature values, and the row
count. -/
structure MonthAccum where
  prcp : List ℚ
  tavg : List ℚ
  count : ℕ
deriving DecidableEq

/-- One step of the row loop: a row with a null (missing) `prcp` or `tavg` is
skipped entirely; otherwise `parseFloat(field) || 0` is pushed into the
month bucket of the row's synthesized date and the count incremented.  The
bucket map is an insertion-ordered association list, as JavaScript objects
with non-integer string keys ("year-month") iterate in insertion order. -/
def pushRow (acc : List ((ℤ × ℤ) × MonthAccum)) (i : ℕ) (row : CSVRow) :
    List ((ℤ × ℤ) × MonthAccum) :=
  if cellIsNull row.prcp || cellIsNull row.tavg then acc
  else
    let key := dateOfIndex i
    let p := coerceNum row.prcp
    let t := coerceNum row.tavg
    if acc.any (fun kv => kv.1 = key) then
      acc.map (fun kv =>
        if kv.1 = key then
          (kv.1, ⟨kv.2.prcp ++ [p], kv.2.tavg ++ [t], kv.2.count + 1⟩)
        else kv)
    else acc ++ [(key, ⟨[p], [t], 1⟩)]

/-- The `monthlyData` object after the whole row loop of
`loadRainfallData`. -/
def buildMonthly (rows : List CSVRow) : List ((ℤ × ℤ) × MonthAccum) :=
  rows.enum.foldl (fun acc iv => pushRow acc iv.1 iv.2) []

/-- `Math.round(x * 10) / 10`, the one-decimal rounding the pipeline applies
to every emitted value.  On finite values JavaScript `Math.round` rounds half
toward positive infinity. -/
def round1 (x : ℚ) : ℚ := (⌊x * 10 + 1/2⌋ : ℤ) / 10

/-- `Math.round(x * 100) / 100`, the two-decimal rounding applied to
deviations and correlation coefficients (on plain rationals). -/
def round2 (x : ℚ) : ℚ := (⌊x * 100 + 1/2⌋ : ℤ) / 100

/-- The record-construction loop of `loadRainfallData`: one `RainfallRecord`
per month bucket, with the precipitation total, the temperature mean and the
estimated humidity each rounded to one decimal.  `hEst` abstracts
`estimateHumidity` (a clamped sinusoid of the month, irrational in general);
every bucket has `count ≥ 1` by construction, so the mean's division is by a
nonzero count. -/
def recordsOfMonthly (hEst : ℚ → ℤ → ℚ) (md : List ((ℤ × ℤ) × MonthAccum)) :
    List RainfallRecord :=
  md.map (fun kv =>
    let year := kv.1.1
    let month := kv.1.2
    let totalRainfall := kv.2.prcp.sum
    let avgTemp := kv.2.tavg.sum / (kv.2.count : ℚ)
    let humidity := hEst avgTemp month
    ⟨year, month, round1 totalRainfall, round1 avgTemp, round1 humidity,
      getSeason month⟩)

/-- Insertion into a list sorted by (year, month), used to model the final
`records.sort` of `loadRainfallData`. -/
def insertByDate (r : RainfallRecord) : List RainfallRecord → List RainfallRecord
  | [] => [r]
  | s :: t =>
    if r.year < s.year ∨ (r.year = s.year ∧ r.month ≤ s.month) then r :: s :: t
    else s :: insertByDate r t

/-- The final sort of `loadRainfallData`, ascending by year then month. -/
def sortRecords (l : List RainfallRecord) : List RainfallRecord :=
  l.foldr insertByDate []

/-- The pure core of `loadRainfallData`: parse the rows into month buckets,
build one record per bucket, and sort by date. -/
def loadRainfallData (hEst : ℚ → ℤ → ℚ) (rows : List CSVRow) :
    List RainfallRecord :=
  sortRecords (recordsOfMonthly hEst (buildMonthly rows))

/-- Sorted insertion of an integer into a sorted list. -/
def insertInt (a : ℤ) : List ℤ → List ℤ
  | [] => [a]
  | b :: t => if a ≤ b then a :: b :: t else b :: insertInt a t

/-- Ascending insertion sort of a list of integers. -/
def sortInts (l : List ℤ) : List ℤ := l.foldr insertInt []

/-- The distinct years of a record list in ascending order.  In
`getAnnualRainfall` this arises because JavaScript objects iterate
integer-like keys in ascending numeric order; in `getSeasonalHeatmapData`
it is the explicit `Array.from(new Set(...)).sort((a, b) => a - b)`. -/
def distinctYears (records : List RainfallRecord) : List ℤ :=
  sortInts (records.map (fun r => r.year)).dedup

/-- `getAnnualRainfall` (loader version): group records by year, and emit per
year the rounded rainfall total and the rounded temperature and humidity
means.  The source accumulates `rainfall/temp/humidity/count` per year in
encounter order; rational addition is associative and commutative, so the
accumulated sums equal the sums over the year's filtered records.  Years
present in the output all have at least one record, so `count ≥ 1` and the
mean's division is by a nonzero count. -/
def getAnnualRainfall (records : List RainfallRecord) : List AnnualRainfall :=
  (distinctYears records).map (fun y =>
    let group := records.filter (fun r => r.year = y)
    let count : ℚ := group.length
    ⟨y, round1 (group.map (fun r => r.rainfall)).sum,
      round1 ((group.map (fun r => r.temperature)).sum / count),
      round1 ((group.map (fun r => r.humidity)).sum / count)⟩)

/-- One cell of the seasonal heatmap output. -/
structure HeatCell where
  year : ℤ
  season : Season
  rainfall : ℚ
deriving DecidableEq

/-- `getSeasonalHeatmapData` (loader version): for every year present in the
records and for each of the four seasons, emit the rounded rainfall total of
that year's records in that season — including seasons with no records,
whose total is the empty sum 0. -/
def getSeasonalHeatmapData (records : List RainfallRecord) : List HeatCell :=
  let seasons : List Season := [.Winter, .Spring, .Summer, .Autumn]
  (distinctYears records).flatMap (fun year =>
    seasons.map (fun season =>
      let seasonRecords :=
        records.filter (fun r => r.year = year ∧ r.season = season)
      let totalRainfall := (seasonRecords.map (fun r => r.rainfall)).sum
      ⟨year, season, round1 totalRainfall⟩))

/-- Population mean of the annual rainfall totals (the value
`avgRainfall` computed in `getExtremeEvents` for a nonempty series). -/
def popMean (annualData : List AnnualRainfall) : ℚ :=
  (annualData.map (fun d => d.totalRainfall)).sum / annualData.length

/-- Population variance of the annual rainfall totals (the argument passed to
`Math.sqrt` in `getExtremeEvents` for a nonempty series). -/
def popVariance (annualData : List AnnualRainfall) : ℚ :=
  (annualData.map (fun d => (d.totalRainfall - popMean annualData) *
    (d.totalRainfall - popMean annualData))).sum / annualData.length

/-- `getExtremeEvents` as in the source (the annual data is obtained there
from `getAnnualRainfall` and passed in here): compute the population mean and
standard deviation of the annual totals, and per year the deviation in
standard deviations, its two-decimal rounding, and the threshold category.
All arithmetic is JavaScript-number arithmetic (`JQ`); `sqrtFn` abstracts
`Math.sqrt`. -/
def getExtremeEvents (sqrtFn : JQ → JQ) (annualData : List AnnualRainfall) :
    List ExtremeEvent :=
  let n : ℚ := annualData.length
  let avgRainfall : JQ :=
    jsDiv (sumJQ (annualData.map (fun d => JQ.num d.totalRainfall))) (.num n)
  let stdDev : JQ :=
    sqrtFn (jsDiv
      (sumJQ (annualData.map (fun d =>
        jsMul (jsSub (.num d.totalRainfall) avgRainfall)
          (jsSub (.num d.totalRainfall) avgRainfall))))
      (.num n))
  annualData.map (fun d =>
    let deviation := jsDiv (jsSub (.num d.totalRainfall) avgRainfall) stdDev
    let category : Category :=
      if jsGt deviation (.num (3/2)) then .extreme_high
      else if jsGt deviation (.num (3/4)) then .high
      else if jsLt deviation (.num (-(3/2))) then .extreme_low
      else if jsLt deviation (.num (-(3/4))) then .low
      else .normal
    ⟨d.year, d.totalRainfall,
      jsDiv (jsRound (jsMul deviation (.num 100))) (.num 100), category⟩)

/-- Modelled from the spec: the category thresholds in their stated priority
order — deviation > 1.5 extreme_high, else > 0.75 high, else < -1.5
extreme_low, else < -0.75 low, otherwise normal — as a function of the exact
(unrounded) deviation. -/
def specCategory (d : ℚ) : Category :=
  if d > 3/2 then .extreme_high
  else if d > 3/4 then .high
  else if d < -(3/2) then .extreme_low
  else if d < -(3/4) then .low
  else .normal

/-- The three correlation variables of the correlation view. -/
inductive Var where
  | rainfall | temperature | humidity
deriving DecidableEq

/-- `CorrelationPoint` from `types/rainfall.ts`. -/
structure CorrelationPoint where
  rainfall : ℚ
  temperature : ℚ
  humidity : ℚ
  year : ℤ
  month : ℤ
deriving DecidableEq

/-- Field selection `d[variable]` on a correlation point. -/
def sel : Var → CorrelationPoint → ℚ
  | .rainfall, p => p.rainfall
  | .temperature, p => p.temperature
  | .humidity, p => p.humidity

/-- The on-demand Pearson correlation of `CorrelationAnalysis` (the
`correlation` memo): means of the selected columns, one accumulation pass for
the numerator and the two squared-deviation sums, then
`Math.round(r * 100) / 100` of `numerator / Math.sqrt(xDenom * yDenom)`.
All arithmetic is JavaScript-number arithmetic; `sqrtFn` abstracts
`Math.sqrt`. -/
def correlation (sqrtFn : JQ → JQ) (data : List CorrelationPoint)
    (xVariable yVariable : Var) : JQ :=
  let n : ℚ := data.length
  let xMean : JQ := jsDiv (.num (data.map (sel xVariable)).sum) (.num n)
  let yMean : JQ := jsDiv (.num (data.map (sel yVariable)).sum) (.num n)
  let numerator : JQ := sumJQ (data.map (fun d =>
    jsMul (jsSub (.num (sel xVariable d)) xMean)
      (jsSub (.num (sel yVariable d)) yMean)))
  let xDenom : JQ := sumJQ (data.map (fun d =>
    jsMul (jsSub (.num (sel xVariable d)) xMean)
      (jsSub (.num (sel xVariable d)) xMean)))
  let yDenom : JQ := sumJQ (data.map (fun d =>
    jsMul (jsSub (.num (sel yVariable d)) yMean)
      (jsSub (.num (sel yVariable d)) yMean)))
  let r : JQ := jsDiv numerator (sqrtFn (jsMul xDenom yDenom))
  jsDiv (jsRound (jsMul r (.num 100))) (.num 100)

/-- The correlation-matrix memo of `CorrelationAnalysis`: its index loops
over `['rainfall', 'temperature', 'humidity']` with `j > i` produce exactly
the three ordered pairs below, and for each pair the source repeats, inline,
its own copy of the Pearson computation; that duplicated body is transcribed
here verbatim. -/
def correlationMatrix (sqrtFn : JQ → JQ) (data : List CorrelationPoint) :
    List (Var × Var × JQ) :=
  let pearsonAt := fun (var1 var2 : Var) =>
    let n : ℚ := data.length
    let xMean : JQ := jsDiv (.num (data.map (sel var1)).sum) (.num n)
    let yMean : JQ := jsDiv (.num (data.map (sel var2)).sum) (.num n)
    let numerator : JQ := sumJQ (data.map (fun d =>
      jsMul (jsSub (.num (sel var1 d)) xMean)
        (jsSub (.num (sel var2 d)) yMean)))
    let xDenom : JQ := sumJQ (data.map (fun d =>
      jsMul (jsSub (.num (sel var1 d)) xMean)
        (jsSub (.num (sel var1 d)) xMean)))
    let yDenom : JQ := sumJQ (data.map (fun d =>
      jsMul (jsSub (.num (sel var2 d)) yMean)
        (jsSub (.num (sel var2 d)) yMean)))
    let r : JQ := jsDiv numerator (sqrtFn (jsMul xDenom yDenom))
    jsDiv (jsRound (jsMul r (.num 100))) (.num 100)
  [(.rainfall, .temperature, pearsonAt .rainfall .temperature),
   (.rainfall, .humidity, pearsonAt .rainfall .humidity),
   (.temperature, .humidity, pearsonAt .temperature .humidity)]

/-- The outcome a caller observes from one call of the cached loader: a
resolved record list, or a rejection. -/
inductive LoadRes where
  | ok (recs : List RainfallRecord)
  | err
deriving DecidableEq

/-- What one sequential call of `loadRainfallData` did: its result, whether
it started a fetch, and whether a parse ran to completion and produced the
cached record set (`parsed` is false for a fetch/parse failure, which rejects
the promise before `cachedData` is assigned). -/
structure StepInfo where
  result : LoadRes
  fetched : Bool
  parsed : Bool
deriving DecidableEq

/-- One sequential call of the cached loader: `if (cachedData) return
cachedData` (a non-null record array is truthy), otherwise fetch and parse;
on success assign `cachedData` and resolve, on fetch/parse failure reject and
leave `cachedData` null.  The fetch outcome of the call is the `fr`
argument. -/
def loadStep (hEst : ℚ → ℤ → ℚ) (cached : Option (List RainfallRecord))
    (fr : Option (List CSVRow)) :
    Option (List RainfallRecord) × StepInfo :=
  match cached with
  | some recs => (some recs, ⟨.ok recs, false, false⟩)
  | none =>
    match fr with
    | none => (none, ⟨.err, true, false⟩)
    | some rows =>
      let recs := loadRainfallData hEst rows
      (some recs, ⟨.ok recs, true, true⟩)

/-- A sequence of sequential calls of the cached loader, threading the
module-level `cachedData` through and recording what each call did. -/
def runTrace (hEst : ℚ → ℤ → ℚ) (cached : Option (List RainfallRecord)) :
    List (Option (List CSVRow)) →
      Option (List RainfallRecord) × List StepInfo
  | [] => (cached, [])
  | fr :: rest =>
    let step := loadStep hEst cached fr
    let tail := runTrace hEst step.1 rest
    (tail.1, step.2 :: tail.2)

/-- The observable state of the cached loader under concurrent callers:
the module-level `cachedData`, the number of in-flight fetch-and-parse
operations, and counters of fetches started and parses completed. -/
structure ConcState where
  cache : Option (List RainfallRecord)
  pending : ℕ
  fetchesStarted : ℕ
  parsesRun : ℕ
deriving DecidableEq

/-- An event of the concurrent cache machine: a caller invokes the loader
(`begin` is the synchronous prefix of the call, from the `cachedData` check
up to and including initiating the fetch — there is no await point between
the two), or one in-flight fetch-and-parse completes with the given rows or
fails. -/
inductive ConcEv where
  | begin
  | completeOk (rows : List CSVRow)
  | completeFail
deriving DecidableEq

/-- One step of the concurrent cache machine, transcribing the control flow
of `loadRainfallData`: a `begin` that sees a populated cache returns it and
starts nothing; a `begin` that sees a null cache starts its own fetch (the
cache holds only completed data, so nothing records an in-flight load); a
successful completion runs the parse and assigns `cachedData`; a failed
completion leaves `cachedData` as it is. -/
def concStep (hEst : ℚ → ℤ → ℚ) (st : ConcState) : ConcEv → ConcState
  | .begin =>
    match st.cache with
    | some _ => st
    | none =>
      { st with pending := st.pending + 1,
                fetchesStarted := st.fetchesStarted + 1 }
  | .completeOk rows =>
    if st.pending = 0 then st
    else
      { cache := some (loadRainfallData hEst rows),
        pending := st.pending - 1,
        fetchesStarted := st.fetchesStarted,
        parsesRun := st.parsesRun + 1 }
  | .completeFail =>
    if st.pending = 0 then st else { st with pending := st.pending - 1 }

/-- Running the concurrent cache machine over a list of events. -/
def concRun (hEst : ℚ → ℤ → ℚ) (st : ConcState) (evs : List ConcEv) :
    ConcState :=
  evs.foldl (concStep hEst) st

/-- The initial state of a fresh process: null cache, nothing in flight. -/
def concInit : ConcState := ⟨none, 0, 0, 0⟩

/-- A stand-in for the abstracted humidity estimator, used only to
instantiate theorems at concrete inputs; no claim under study depends on the
estimator's value. -/
def hEst0 : ℚ → ℤ → ℚ := fun _ _ => 65

/-- A stand-in for `Math.sqrt`, agreeing with it at every argument the
concrete instances below exercise (25600 and 0 — both perfect squares). -/
def sqrtF : JQ → JQ :=
  fun x => match x with
  | .num q => if q = 25600 then .num 160 else if q = 0 then .num 0 else .nan
  | _ => .nan

/-- The spec's synthetic annual series [100, 100, 100, 100, 500] (mm), one
entry per year 1993-1997. -/
def series100500 : List AnnualRainfall :=
  [⟨1993, 100, 0, 0⟩, ⟨1994, 100, 0, 0⟩, ⟨1995, 100, 0, 0⟩,
   ⟨1996, 100, 0, 0⟩, ⟨1997, 500, 0, 0⟩]

/-- The spec's degenerate annual series [100, 100, 100] (all years
identical, population standard deviation 0). -/
def series100 : List AnnualRainfall :=
  [⟨1993, 100, 0, 0⟩, ⟨1994, 100, 0, 0⟩, ⟨1995, 100, 0, 0⟩]

/-- Modelled from the spec: rounding to one decimal place with ties away
from zero, `sign(x) * round(|x| * 10) / 10` (for a non-negative argument the
inner `round` is the usual half-up rounding, which on non-negatives is also
half-away-from-zero). -/
def specRound1 (x : ℚ) : ℚ :=
  if x < 0 then -((⌊-x * 10 + 1/2⌋ : ℤ) / 10 : ℚ)
  else ((⌊x * 10 + 1/2⌋ : ℤ) / 10 : ℚ)

theorem jsMul_comm (x y : JQ) : jsMul x y = jsMul y x := by
  cases x <;> cases y <;> simp [jsMul, mul_comm, Bool.beq_comm]

theorem jsAdd_num (a b : ℚ) : jsAdd (.num a) (.num b) = .num (a + b) := rfl

theorem jsSub_num (a b : ℚ) : jsSub (.num a) (.num b) = .num (a - b) := by
  simp [jsSub, jsAdd, jsNeg, sub_eq_add_neg]

theorem jsMul_num (a b : ℚ) : jsMul (.num a) (.num b) = .num (a * b) := rfl

theorem jsDiv_num (a b : ℚ) (hb : b ≠ 0) :
    jsDiv (.num a) (.num b) = .num (a / b) := by
  simp [jsDiv, hb]

theorem jsDiv_zero_zero : jsDiv (.num 0) (.num 0) = .nan := by
  simp [jsDiv]

theorem sumJQ_aux {α : Type} (l : List α) (f : α → ℚ) (q : ℚ) :
    (l.map (fun a => JQ.num (f a))).foldl jsAdd (.num q) =
      .num (q + (l.map f).sum) := by
  induction l generalizing q with
  | nil => simp
  | cons a t ih => simp [jsAdd, ih, add_assoc]

/-- Summing a list of finite values in `JQ` is the rational sum. -/
theorem sumJQ_map_num {α : Type} (l : List α) (f : α → ℚ) :
    sumJQ (l.map (fun a => JQ.num (f a))) = .num ((l.map f).sum) := by
  simp [sumJQ, sumJQ_aux]

/-- The Pearson computation of the correlation view is symmetric in its two
variable selectors: the numerator terms commute pointwise and the product
under the square root commutes. -/
theorem correlation_comm (sqrtFn : JQ → JQ) (data : List CorrelationPoint)
    (a b : Var) : correlation sqrtFn data a b = correlation sqrtFn data b a := by
  simp only [correlation]
  rw [show (fun d => jsMul (jsSub (.num (sel a d))
        (jsDiv (.num (data.map (sel a)).sum) (.num (data.length : ℚ))))
      (jsSub (.num (sel b d))
        (jsDiv (.num (data.map (sel b)).sum) (.num (data.length : ℚ))))) =
      (fun d => jsMul (jsSub (.num (sel b d))
        (jsDiv (.num (data.map (sel b)).sum) (.num (data.length : ℚ))))
      (jsSub (.num (sel a d))
        (jsDiv (.num (data.map (sel a)).sum) (.num (data.length : ℚ)))))
    from funext fun d => jsMul_comm _ _]
  rw [jsMul_comm (sumJQ (data.map (fun d => jsMul (jsSub (.num (sel a d))
        (jsDiv (.num (data.map (sel a)).sum) (.num (data.length : ℚ))))
      (jsSub (.num (sel a d))
        (jsDiv (.num (data.map (sel a)).sum) (.num (data.length : ℚ)))))))]

/-- C3: the claim says a row with an established date but non-numeric
precipitation is excluded from precipitation aggregations and never coerced
to zero.  The code instead keeps the row and pushes
`parseFloat(row.prcp) || 0 = 0` into the month bucket: for the single row
(prcp = a non-numeric string, tavg = 20), the January-1993 bucket holds the
substituted precipitation value 0 and counts the row. -/
theorem nonnumeric_prcp_coerced_to_zero :
    buildMonthly [⟨Cell.strv none, Cell.numv 20⟩] =
      [((1993, 1), ⟨[0], [20], 1⟩)] ∧
    loadRainfallData hEst0 [⟨Cell.strv none, Cell.numv 20⟩] =
      [⟨1993, 1, 0, 20, 65, .Winter⟩] := by
  constructor
  · rfl
  · norm_num [loadRainfallData, buildMonthly, pushRow, cellIsNull, coerceNum,
      dateOfIndex, addDays, recordsOfMonthly, sortRecords, insertByDate,
      hEst0, round1, getSeason]

/-- C7 counterexample: the claim says every bucket appearing in the
aggregator's output contains at least one record, empty buckets being
omitted.  For a record set with a single January (Winter) record, the
seasonal heatmap nevertheless emits all four seasons of 1993, zero-filling
Spring, Summer and Autumn although no record of those seasons exists. -/
theorem seasonal_heatmap_emits_empty_bucket :
    getSeasonalHeatmapData [⟨1993, 1, 5, 10, 50, .Winter⟩] =
      [⟨1993, .Winter, 5⟩, ⟨1993, .Spring, 0⟩,
       ⟨1993, .Summer, 0⟩, ⟨1993, .Autumn, 0⟩] ∧
    ([⟨1993, 1, 5, 10, 50, .Winter⟩] : List RainfallRecord).filter
      (fun r => r.year = 1993 ∧ r.season = Season.Spring) = [] := by
  constructor
  · simp [getSeasonalHeatmapData, distinctYears, sortInts, insertInt,
      List.filter]
    norm_num [round1]
  · decide

/-- C8 counterexample: the claim says every emitted value is rounded
half-away-from-zero, so a year whose full-precision mean temperature is
-2.45 would emit -2.5.  The code uses `Math.round(x * 10) / 10`, which
rounds half toward positive infinity: the year below has full-precision mean
temperature -49/20 = -2.45 and the code emits -2.4, while the claim's
formula gives -2.5. -/
theorem round_negative_tie_not_half_away :
    getAnnualRainfall [⟨2000, 1, 0, -12/5, 50, .Winter⟩,
        ⟨2000, 2, 0, -5/2, 50, .Winter⟩] = [⟨2000, 0, -12/5, 50⟩] ∧
    (([⟨2000, 1, 0, -12/5, 50, .Winter⟩, ⟨2000, 2, 0, -5/2, 50, .Winter⟩] :
        List RainfallRecord).map (fun r => r.temperature)).sum / 2 =
      -49/20 ∧
    specRound1 (-49/20) = -5/2 ∧ ((-12)/5 : ℚ) ≠ -5/2 := by
  refine ⟨?_, by norm_num, by norm_num [specRound1], by norm_num⟩
  simp [getAnnualRainfall, distinctYears, sortInts, insertInt, List.filter]
  norm_num [round1]

/-- C2: the claim says that on an all-identical annual series the classifier
detects the zero standard deviation, classifies every year normal, and
propagates no NaN.  The code classifies every year normal only because every
NaN comparison is false, and it does propagate NaN: each emitted deviation is
`Math.round((0 / 0) * 100) / 100 = NaN`. -/
theorem extreme_events_zero_sigma_nan_deviation :
    getExtremeEvents sqrtF series100 =
      [⟨1993, 100, .nan, .normal⟩, ⟨1994, 100, .nan, .normal⟩,
       ⟨1995, 100, .nan, .normal⟩] := by
  norm_num [getExtremeEvents, series100, sqrtF, sumJQ, jsAdd, jsDiv, jsSub,
    jsNeg, jsMul, jsRound, jsGt, jsLt]

/-- C9 counterexample: the claim says two callers requesting before the
first parse completes share a single fetch-and-parse.  From a fresh process,
two begins before any completion start two fetches, and after both complete
two parses have run. -/
theorem concurrent_first_requests_double_fetch :
    (concRun hEst0 concInit [.begin, .begin]).fetchesStarted = 2 ∧
    (concRun hEst0 concInit
      [.begin, .begin, .completeOk [], .completeOk []]).parsesRun = 2 := by
  constructor <;> rfl

/-- C6: for every record set and every pair of variables, the Pearson
correlation of the correlation view is symmetric: selecting A on the x-axis
and B on the y-axis yields exactly the same result as the swapped
selection. -/
theorem correlation_symmetric (sqrtFn : JQ → JQ) (data : List CorrelationPoint)
    (a b : Var) :
    correlation sqrtFn data a b = correlation sqrtFn data b a :=
  correlation_comm sqrtFn data a b

/-- C10: the two duplicated Pearson implementations of the correlation view
agree — for every record set, each entry the matrix memo stores for an
unordered pair equals the on-demand scatter-plot correlation of that pair
(x the first variable, y the second). -/
theorem matrix_matches_on_demand_correlation (sqrtFn : JQ → JQ)
    (data : List CorrelationPoint) :
    correlationMatrix sqrtFn data =
      [(.rainfall, .temperature,
          correlation sqrtFn data .rainfall .temperature),
       (.rainfall, .humidity, correlation sqrtFn data .rainfall .humidity),
       (.temperature, .humidity,
          correlation sqrtFn data .temperature .humidity)] := rfl

/-- If every selected x-value of the data equals the constant `c`, the
Pearson computation yields NaN: the numerator and both squared-deviation
sums collapse so that the final division is `0 / Math.sqrt(0) = 0 / 0`. -/
theorem correlation_const_x (sqrtFn : JQ → JQ) (data : List CorrelationPoint)
    (a b : Var) (c : ℚ) (hf : sqrtFn (.num 0) = .num 0)
    (hc : ∀ p ∈ data, sel a p = c) :
    correlation sqrtFn data a b = .nan := by
  rcases List.eq_nil_or_concat data with rfl | hne
  · simp [correlation, sumJQ, jsMul, jsDiv, hf, jsRound]
  have hn : (data.length : ℚ) ≠ 0 := by
    rcases hne with ⟨l, x, rfl⟩
    simp
    positivity
  have hxs : (data.map (sel a)).sum = (data.length : ℚ) * c := by
    rw [List.sum_eq_card_nsmul (data.map (sel a)) c]
    · simp [mul_comm]
    · intro x hx
      rcases List.mem_map.mp hx with ⟨p, hp, rfl⟩
      exact hc p hp
  have hxm : jsDiv (.num (data.map (sel a)).sum) (.num (data.length : ℚ)) =
      .num c := by
    rw [hxs, jsDiv_num _ _ hn, mul_div_cancel_left₀ _ hn]
  have hym : jsDiv (.num (data.map (sel b)).sum) (.num (data.length : ℚ)) =
      .num ((data.map (sel b)).sum / (data.length : ℚ)) :=
    jsDiv_num _ _ hn
  simp only [correlation, hxm, hym]
  have hnum : (data.map (fun d => jsMul (jsSub (.num (sel a d)) (.num c))
      (jsSub (.num (sel b d))
        (.num ((data.map (sel b)).sum / (data.length : ℚ)))))) =
      data.map (fun _ => JQ.num 0) := by
    apply List.map_congr_left
    intro p hp
    rw [hc p hp, jsSub_num, sub_self, jsSub_num, jsMul_num, zero_mul]
  have hxd : (data.map (fun d => jsMul (jsSub (.num (sel a d)) (.num c))
      (jsSub (.num (sel a d)) (.num c)))) = data.map (fun _ => JQ.num 0) := by
    apply List.map_congr_left
    intro p hp
    rw [hc p hp, jsSub_num, sub_self, jsMul_num, zero_mul]
  have hyd : (data.map (fun d => jsMul (jsSub (.num (sel b d))
      (.num ((data.map (sel b)).sum / (data.length : ℚ))))
      (jsSub (.num (sel b d))
        (.num ((data.map (sel b)).sum / (data.length : ℚ)))))) =
      data.map (fun d => JQ.num
        ((sel b d - (data.map (sel b)).sum / (data.length : ℚ)) *
         (sel b d - (data.map (sel b)).sum / (data.length : ℚ)))) := by
    apply List.map_congr_left
    intro p _
    rw [jsSub_num, jsMul_num]
  have hzero : sumJQ (data.map (fun _ => JQ.num 0)) = .num 0 := by
    have := sumJQ_map_num data (fun _ => (0 : ℚ))
    simpa using this
  rw [hnum, hxd, hyd, hzero, sumJQ_map_num]
  rw [show jsMul (JQ.num 0) (.num ((data.map fun d =>
      (sel b d - (data.map (sel b)).sum / (data.length : ℚ)) *
      (sel b d - (data.map (sel b)).sum / (data.length : ℚ))).sum)) =
    .num 0 from by rw [jsMul_num, zero_mul]]
  rw [hf, jsDiv_zero_zero]
  rfl

/-- C5: for every record set in which at least one of the two selected
variables is constant (zero variance), the Pearson correlation computation
returns the sentinel NaN — it is a total function (never throws) and the
result is NaN, not 0.  The hypothesis on `sqrtFn` pins `Math.sqrt` at the
only point used, `Math.sqrt(0) = 0`. -/
theorem correlation_zero_variance_nan (sqrtFn : JQ → JQ)
    (data : List CorrelationPoint) (a b : Var) (hf : sqrtFn (.num 0) = .num 0)
    (hc : (∃ c, ∀ p ∈ data, sel a p = c) ∨ (∃ c, ∀ p ∈ data, sel b p = c)) :
    correlation sqrtFn data a b = .nan := by
  rcases hc with ⟨c, hc⟩ | ⟨c, hc⟩
  · exact correlation_const_x sqrtFn data a b c hf hc
  · rw [correlation_comm]
    exact correlation_const_x sqrtFn data b a c hf hc

/-- C5 witness: a concrete two-point record set with constant rainfall has
correlation NaN between rainfall and temperature. -/
theorem correlation_zero_variance_nan_witness :
    correlation sqrtF [⟨1, 2, 3, 1990, 1⟩, ⟨1, 5, 8, 1990, 2⟩]
      .rainfall .temperature = .nan := by
  apply correlation_zero_variance_nan sqrtF _ _ _ (by rfl)
  exact Or.inl ⟨1, by intro p hp; simp [sel] at hp ⊢; rcases hp with rfl | rfl <;> rfl⟩

/-- C1: for every annual series with nonzero standard deviation `s` (pinned
relationally: `s ≥ 0`, `s * s` is the population variance, and `sqrtFn`
returns it), every year's category is determined by its exact deviation
`(totalRainfall - mean) / s` through the threshold cascade in priority
order — deviation > 1.5 extreme_high, else > 0.75 high, else < -1.5
extreme_low, else < -0.75 low, else normal — and the reported deviation is
its two-decimal rounding. -/
theorem extreme_events_follow_threshold_cascade
    (sqrtFn : JQ → JQ) (annualData : List AnnualRainfall) (s : ℚ)
    (hne : annualData ≠ [])
    (hf : sqrtFn (.num (popVariance annualData)) = .num s)
    (hs0 : 0 ≤ s) (hsq : s * s = popVariance annualData) (hs : s ≠ 0) :
    getExtremeEvents sqrtFn annualData = annualData.map (fun d =>
      ⟨d.year, d.totalRainfall,
        .num (round2 ((d.totalRainfall - popMean annualData) / s)),
        specCategory ((d.totalRainfall - popMean annualData) / s)⟩) := by
  have hn : (annualData.length : ℚ) ≠ 0 := by
    have := List.length_pos.mpr hne
    positivity
  have havg : jsDiv (sumJQ (annualData.map (fun d => JQ.num d.totalRainfall)))
      (.num (annualData.length : ℚ)) = .num (popMean annualData) := by
    rw [sumJQ_map_num, jsDiv_num _ _ hn]
    rfl
  have hvar : jsDiv (sumJQ (annualData.map (fun d =>
      jsMul (jsSub (.num d.totalRainfall) (.num (popMean annualData)))
            (jsSub (.num d.totalRainfall) (.num (popMean annualData))))))
      (.num (annualData.length : ℚ)) = .num (popVariance annualData) := by
    rw [show (annualData.map (fun d =>
        jsMul (jsSub (.num d.totalRainfall) (.num (popMean annualData)))
              (jsSub (.num d.totalRainfall) (.num (popMean annualData))))) =
        annualData.map (fun d => JQ.num
          ((d.totalRainfall - popMean annualData) *
           (d.totalRainfall - popMean annualData))) from
      List.map_congr_left fun d _ => by rw [jsSub_num, jsMul_num]]
    rw [sumJQ_map_num, jsDiv_num _ _ hn]
    rfl
  simp only [getExtremeEvents, havg, hvar, hf]
  apply List.map_congr_left
  intro d _
  have h100 : (100 : ℚ) ≠ 0 := by norm_num
  simp only [jsSub_num, jsDiv_num _ _ hs, jsMul_num, jsRound,
    jsDiv_num _ _ h100, jsGt, jsLt, specCategory, round2,
    decide_eq_true_eq, gt_iff_lt]

/-- C1 witness: on the spec's synthetic series [100, 100, 100, 100, 500]
(mean 180, standard deviation 160) the 500 year has deviation 2.0 and is
classified extreme_high, and each 100 year has deviation -0.5 and is
classified normal. -/
theorem extreme_events_follow_threshold_cascade_witness :
    getExtremeEvents sqrtF series100500 =
      [⟨1993, 100, .num (-(1/2)), .normal⟩, ⟨1994, 100, .num (-(1/2)), .normal⟩,
       ⟨1995, 100, .num (-(1/2)), .normal⟩, ⟨1996, 100, .num (-(1/2)), .normal⟩,
       ⟨1997, 500, .num 2, .extreme_high⟩] := by
  have hmean : popMean series100500 = 180 := by
    norm_num [popMean, series100500]
  have hvar : popVariance series100500 = 25600 := by
    norm_num [popVariance, popMean, series100500]
  have h := extreme_events_follow_threshold_cascade sqrtF series100500 160
    (by simp [series100500]) (by rw [hvar]; rfl) (by norm_num)
    (by rw [hvar]; norm_num) (by norm_num)
  rw [h]
  simp only [hmean]
  norm_num [series100500, round2, specCategory]

/-- Once the cache holds a record set, no later sequential call parses. -/
theorem runTrace_from_some_no_parse (hEst : ℚ → ℤ → ℚ)
    (recs : List RainfallRecord) (trace : List (Option (List CSVRow))) :
    (runTrace hEst (some recs) trace).2.countP (fun st => st.parsed) = 0 := by
  induction trace with
  | nil => rfl
  | cons fr rest ih => simp [runTrace, loadStep, List.countP_cons, ih]

/-- C4: a call that finds the cache populated returns the cached sequence
with no fetch and no parse; over any sequence of sequential calls from a
fresh process at most one parse completes; a failed load leaves the cache
empty; and a successful load from an empty cache parses and caches. -/
theorem cache_returns_memoized_and_parses_at_most_once (hEst : ℚ → ℤ → ℚ) :
    (∀ recs fr, loadStep hEst (some recs) fr =
      (some recs, ⟨.ok recs, false, false⟩)) ∧
    (∀ trace, ((runTrace hEst none trace).2.countP (fun st => st.parsed)) ≤ 1) ∧
    (loadStep hEst none none = (none, ⟨.err, true, false⟩)) ∧
    (∀ rows, loadStep hEst none (some rows) =
      (some (loadRainfallData hEst rows),
        ⟨.ok (loadRainfallData hEst rows), true, true⟩)) := by
  refine ⟨fun recs fr => rfl, ?_, rfl, fun rows => rfl⟩
  intro trace
  induction trace with
  | nil => simp [runTrace]
  | cons fr rest ih =>
    cases fr with
    | none => simpa [runTrace, loadStep, List.countP_cons] using ih
    | some rows =>
      simp [runTrace, loadStep, List.countP_cons, runTrace_from_some_no_parse]

/-- Membership in a sorted insertion. -/
theorem mem_insertInt {y a : ℤ} {l : List ℤ} :
    y ∈ insertInt a l ↔ y = a ∨ y ∈ l := by
  induction l with
  | nil => simp [insertInt]
  | cons b t ih =>
    by_cases h : a ≤ b
    · simp [insertInt, h]
    · simp [insertInt, h, ih]
      tauto

/-- Sorting does not change membership. -/
theorem mem_sortInts {y : ℤ} {l : List ℤ} : y ∈ sortInts l ↔ y ∈ l := by
  induction l with
  | nil => simp [sortInts]
  | cons b t ih => simp [sortInts, mem_insertInt, ih]
    <;> tauto

/-- A year is in `distinctYears records` exactly when some record has it. -/
theorem mem_distinctYears {y : ℤ} {records : List RainfallRecord} :
    y ∈ distinctYears records ↔ ∃ r ∈ records, r.year = y := by
  simp [distinctYears, mem_sortInts, List.mem_dedup]

/-- One row-loop step preserves positivity of every bucket count. -/
theorem pushRow_count_pos (acc : List ((ℤ × ℤ) × MonthAccum)) (i : ℕ)
    (row : CSVRow) (h : ∀ kv ∈ acc, 1 ≤ kv.2.count) :
    ∀ kv ∈ pushRow acc i row, 1 ≤ kv.2.count := by
  intro kv hkv
  unfold pushRow at hkv
  split at hkv
  · exact h kv hkv
  · dsimp only at hkv
    split at hkv
    · rcases List.mem_map.mp hkv with ⟨kv0, hkv0, rfl⟩
      split
      · simp
      · exact h kv0 hkv0
    · rcases List.mem_append.mp hkv with h1 | h2
      · exact h kv h1
      · simp at h2
        simp [h2]

/-- Every month bucket that `loadRainfallData` builds counts at least one
row. -/
theorem buildMonthly_count_pos (rows : List CSVRow) :
    ∀ kv ∈ buildMonthly rows, 1 ≤ kv.2.count := by
  have key : ∀ (l : List (ℕ × CSVRow)) (acc : List ((ℤ × ℤ) × MonthAccum)),
      (∀ kv ∈ acc, 1 ≤ kv.2.count) →
      ∀ kv ∈ l.foldl (fun acc iv => pushRow acc iv.1 iv.2) acc,
        1 ≤ kv.2.count := by
    intro l
    induction l with
    | nil => intro acc h; exact h
    | cons iv t ih => intro acc h; exact ih _ (pushRow_count_pos _ _ _ h)
  exact key rows.enum [] (by simp)

/-- C7 amended: the monthly buckets of the parser and the year buckets of
the annual aggregator each contain at least one record; the seasonal heatmap
instead emits all four seasons of every present year, zero-filling seasons
with no records. -/
theorem bucket_emission_characterization :
    (∀ rows, ∀ kv ∈ buildMonthly rows, 1 ≤ kv.2.count) ∧
    (∀ records : List RainfallRecord, ∀ a ∈ getAnnualRainfall records,
      records.filter (fun r => r.year = a.year) ≠ []) ∧
    (∀ records : List RainfallRecord, ∀ cell ∈ getSeasonalHeatmapData records,
      (∃ r ∈ records, r.year = cell.year) ∧
      (records.filter (fun r => r.year = cell.year ∧ r.season = cell.season)
          = [] → cell.rainfall = 0)) := by
  refine ⟨buildMonthly_count_pos, ?_, ?_⟩
  · intro records a ha
    rcases List.mem_map.mp ha with ⟨y, hy, rfl⟩
    rcases mem_distinctYears.mp hy with ⟨r, hr, hry⟩
    exact List.ne_nil_of_mem (List.mem_filter.mpr ⟨hr, by simp [hry]⟩)
  · intro records cell hc
    rcases List.mem_flatMap.mp hc with ⟨y, hy, hcell⟩
    rcases List.mem_map.mp hcell with ⟨season, _, rfl⟩
    constructor
    · exact mem_distinctYears.mp hy
    · intro hempty
      simp only at hempty ⊢
      rw [hempty]
      norm_num [round1]

/-- C7 witness: the annual aggregator's 1993 entry for a one-record set is
backed by a nonempty filtered record list. -/
theorem bucket_emission_characterization_witness :
    ([⟨1993, 1, 5, 10, 50, .Winter⟩] : List RainfallRecord).filter
      (fun r => r.year = (⟨1993, 5, 10, 50⟩ : AnnualRainfall).year) ≠ [] := by
  apply (bucket_emission_characterization).2.1 [⟨1993, 1, 5, 10, 50, .Winter⟩]
    ⟨1993, 5, 10, 50⟩
  simp [getAnnualRainfall, distinctYears, sortInts, insertInt, List.filter]
  norm_num [round1]

/-- C8 amended: the pipeline's one-decimal rounding is JavaScript
`Math.round(x * 10) / 10`, i.e. round-half-toward-positive-infinity
`⌊10x + 1/2⌋ / 10`; it agrees with the claim's round-half-away-from-zero on
non-negative values (but not at negative ties); and the annual aggregator
applies it exactly once, to the full-precision sum (respectively mean) over
the year's records. -/
theorem rounding_half_up_single_application :
    (∀ x : ℚ, round1 x = ((⌊x * 10 + 1/2⌋ : ℤ) : ℚ) / 10) ∧
    (∀ x : ℚ, 0 ≤ x → round1 x = specRound1 x) ∧
    (∀ records : List RainfallRecord, ∀ a ∈ getAnnualRainfall records,
      a.totalRainfall = round1
        (((records.filter (fun r => r.year = a.year)).map
          (fun r => r.rainfall)).sum) ∧
      a.avgTemperature = round1
        ((((records.filter (fun r => r.year = a.year)).map
          (fun r => r.temperature)).sum) /
          ((records.filter (fun r => r.year = a.year)).length : ℚ)) ∧
      a.avgHumidity = round1
        ((((records.filter (fun r => r.year = a.year)).map
          (fun r => r.humidity)).sum) /
          ((records.filter (fun r => r.year = a.year)).length : ℚ))) := by
  refine ⟨fun x => rfl, ?_, ?_⟩
  · intro x hx
    rw [specRound1, if_neg (not_lt.mpr hx)]
    rfl
  · intro records a ha
    rcases List.mem_map.mp ha with ⟨y, _, rfl⟩
    exact ⟨rfl, rfl, rfl⟩

/-- C8 amended witness: at the non-negative input 7/2 the code's rounding
agrees with half-away-from-zero, and the 1993 entry of a concrete annual
aggregation is the single rounding of the full-precision sum. -/
theorem rounding_half_up_single_application_witness :
    ((0:ℚ) ≤ 7/2 ∧ round1 (7/2) = specRound1 (7/2)) ∧
    (⟨1993, 5, 10, 50⟩ : AnnualRainfall).totalRainfall = round1
      ((([⟨1993, 1, 5, 10, 50, .Winter⟩] : List RainfallRecord).filter
        (fun r => r.year = (⟨1993, 5, 10, 50⟩ : AnnualRainfall).year)).map
        (fun r => r.rainfall)).sum := by
  constructor
  · exact ⟨by norm_num,
      (rounding_half_up_single_application).2.1 (7/2) (by norm_num)⟩
  · apply ((rounding_half_up_single_application).2.2
      [⟨1993, 1, 5, 10, 50, .Winter⟩] ⟨1993, 5, 10, 50⟩ ?_).1
    simp [getAnnualRainfall, distinctYears, sortInts, insertInt, List.filter]
    norm_num [round1]

/-- C9 amended: a caller that begins while the cache is populated starts no
fetch; but a caller that begins while the cache is empty always starts its
own fetch, so two callers that both begin before any parse has completed
start two fetches — the cache stores only completed data, not the in-flight
load. -/
theorem cache_no_single_flight_guard (hEst : ℚ → ℤ → ℚ) :
    (∀ st recs, st.cache = some recs → concStep hEst st .begin = st) ∧
    (∀ st : ConcState, st.cache = none →
      (concStep hEst st .begin).fetchesStarted = st.fetchesStarted + 1 ∧
      (concStep hEst (concStep hEst st .begin) .begin).fetchesStarted =
        st.fetchesStarted + 2) := by
  constructor
  · intro st recs h
    simp [concStep, h]
  · intro st h
    simp [concStep, h]

/-- C9 amended witness: from a fresh process, two begins before any
completion start two fetches. -/
theorem cache_no_single_flight_guard_witness :
    (concStep hEst0 (concStep hEst0 concInit .begin) .begin).fetchesStarted =
      concInit.fetchesStarted + 2 :=
  ((cache_no_single_flight_guard hEst0).2 concInit rfl).2

end RainfallSF
